import Mathlib

/-!
Shallow embedding of the WatchParty real-time orchestration core
(backend/app/websocket/manager.py, backend/app/websocket/routes.py,
backend/app/browser/manager.py, backend/app/browser/session.py,
backend/app/browser/audio.py), with theorems checking the spec's claims.
-/

namespace WatchParty

/-! ## Connection registry (backend/app/websocket/manager.py) -/

/-- A single WebSocket connection (`Connection` dataclass).  The underlying
transport handle is identified by a number; its send behaviour is supplied
externally by a `Net` environment. -/
structure Connection where
  websocket : Nat
  user_id : Int
  username : String
  room_code : String
deriving DecidableEq, Repr

/-- The `ConnectionManager.rooms` dict, `room_code -> list of connections`.
A dict key that is absent is represented by the empty list: every operation
of the manager treats the two identically (`connect` creates `[]` before
appending, `disconnect` deletes an entry exactly when it becomes empty, and
all readers use `.get(room_code, [])` or return early on a missing key). -/
def Rooms : Type := String → List Connection

/-- Fresh manager state: no rooms. -/
def emptyRooms : Rooms := fun _ => []

/-- ConnectionManager.connect: accepts the socket, builds the `Connection`
and appends it to the room's list (creating the list if needed). -/
def connect (rooms : Rooms) (websocket : Nat) (user_id : Int)
    (username : String) (room_code : String) : Connection × Rooms :=
  let connection : Connection :=
    { websocket := websocket, user_id := user_id,
      username := username, room_code := room_code }
  (connection,
    fun r => if r = room_code then rooms r ++ [connection] else rooms r)

/-- ConnectionManager.disconnect: keeps only the connections of the room
whose `user_id` differs from the leaving connection's, pruning the entry
when it empties (absent key and `[]` coincide in this model). -/
def disconnect (rooms : Rooms) (connection : Connection) : Rooms :=
  fun r =>
    if r = connection.room_code then
      (rooms r).filter (fun c => c.user_id ≠ connection.user_id)
    else rooms r

/-- Transport environment: for each socket handle, whether `send_json`
succeeds on it right now (`false` models the call raising). -/
def Net : Type := Nat → Bool

/-- One `websocket.send_json(message)` call, fallible. -/
def sendJson (net : Net) (ws : Nat) : Except Unit Unit :=
  if net ws then .ok () else .error ()

/-- The body of `ConnectionManager.broadcast_to_room`'s for-loop: each send
is wrapped in `try ... except Exception: pass`, so a failed send contributes
nothing and the loop continues with the remaining connections.  The result
is the list of performed deliveries `(connection, message)`. -/
def broadcastLoop (net : Net) (conns : List Connection) (message : α) :
    List (Connection × α) :=
  match conns with
  | [] => []
  | c :: rest =>
    match sendJson net c.websocket with
    | .ok _ => (c, message) :: broadcastLoop net rest message
    | .error _ => broadcastLoop net rest message

/-- ConnectionManager.broadcast_to_room: early return on a missing room
(empty list here), otherwise the delivery loop above. -/
def broadcast_to_room (net : Net) (rooms : Rooms) (room_code : String)
    (message : α) : List (Connection × α) :=
  broadcastLoop net (rooms room_code) message

/-- ConnectionManager.send_personal: best effort single send; reports
whether the send succeeded (the exception is swallowed either way). -/
def send_personal (net : Net) (connection : Connection) (_message : α) : Bool :=
  net connection.websocket

/-- ConnectionManager.get_room_connections. -/
def get_room_connections (rooms : Rooms) (room_code : String) :
    List Connection :=
  rooms room_code

/-- ConnectionManager.get_connection_by_user_id: first connection of the
room with the given user id, if any. -/
def get_connection_by_user_id (rooms : Rooms) (room_code : String)
    (user_id : Int) : Option Connection :=
  (rooms room_code).find? (fun c => c.user_id = user_id)

/-! ## Browser session (backend/app/browser/session.py) -/

/-- A `BrowserSession`.  Each resource handle field is `true` exactly when
the corresponding attribute (`_playwright`, `_browser`, `_context`, `_page`)
is not `None`; `sid` is a ghost identity distinguishing distinct Python
objects; `executor_alive` mirrors the dedicated executor not having been
shut down. -/
structure BrowserSession where
  sid : Nat
  room_code : String
  playwright : Bool
  browser : Bool
  context : Bool
  page : Bool
  is_running_flag : Bool
  executor_alive : Bool
deriving DecidableEq, Repr

/-- BrowserSession.__init__: all handles null, not running, executor up. -/
def BrowserSession.init (sid : Nat) (room_code : String) : BrowserSession :=
  { sid := sid, room_code := room_code, playwright := false, browser := false,
    context := false, page := false, is_running_flag := false,
    executor_alive := true }

/-- BrowserSession.is_running property: `_is_running and _page is not None`. -/
def BrowserSession.is_running (s : BrowserSession) : Bool :=
  s.is_running_flag && s.page

/-- BrowserSession.start / `_start_sync`: no-op when the flag is set,
otherwise acquires playwright, browser, context and page and sets the flag. -/
def BrowserSession.start (s : BrowserSession) : BrowserSession :=
  if s.is_running_flag then s
  else { s with playwright := true, browser := true, context := true,
                page := true, is_running_flag := true }

/-- The release step of `_stop_sync` at which an exception was raised. -/
inductive StopStep where
  | pageClose
  | contextClose
  | browserClose
  | playwrightStop
deriving DecidableEq, Repr

/-- Environment for `stop`: whether each underlying close/stop call would
succeed if performed (`false` models it raising). -/
structure CloseEnv where
  page_close_ok : Bool
  context_close_ok : Bool
  browser_close_ok : Bool
  playwright_stop_ok : Bool
deriving DecidableEq, Repr

/-- One guarded release step of `_stop_sync`: `if handle: handle.close();
handle = None`.  On an exception the handle is left as is and the error
propagates. -/
def closeStep (present : Bool) (ok : Bool) (clear : BrowserSession → BrowserSession)
    (tag : StopStep) (s : BrowserSession) :
    BrowserSession × Option StopStep :=
  if present then
    if ok then (clear s, none) else (s, some tag)
  else (s, none)

/-- BrowserSession._stop_sync: flips `_is_running` to `False` first, then
releases page, context, browser, playwright in that order.  Python has no
try/except around the release calls, so an exception at one step skips all
later steps (the partially mutated object is kept, the error propagates). -/
def BrowserSession.stop_sync (env : CloseEnv) (s0 : BrowserSession) :
    BrowserSession × Option StopStep :=
  let s1 := { s0 with is_running_flag := false }
  match closeStep s1.page env.page_close_ok
      (fun s => { s with page := false }) .pageClose s1 with
  | (s, some e) => (s, some e)
  | (s2, none) =>
    match closeStep s2.context env.context_close_ok
        (fun s => { s with context := false }) .contextClose s2 with
    | (s, some e) => (s, some e)
    | (s3, none) =>
      match closeStep s3.browser env.browser_close_ok
          (fun s => { s with browser := false }) .browserClose s3 with
      | (s, some e) => (s, some e)
      | (s4, none) =>
        closeStep s4.playwright env.playwright_stop_ok
          (fun s => { s with playwright := false }) .playwrightStop s4

/-- BrowserSession.stop: no-op when `_is_running` is false; otherwise runs
`_stop_sync` on the worker and, only when it returned normally, shuts the
executor down. -/
def BrowserSession.stop (env : CloseEnv) (s : BrowserSession) :
    BrowserSession × Option StopStep :=
  if s.is_running_flag then
    match s.stop_sync env with
    | (s', none) => ({ s' with executor_alive := false }, none)
    | (s', some e) => (s', some e)
  else (s, none)

/-- Python str.startswith, on the model's view of strings as char lists. -/
def pyStartsWith (s pre : String) : Bool :=
  s.toList.take pre.toList.length == pre.toList

/-- The URL actually passed to `page.goto` by `_navigate_sync`: a default
scheme is prepended unless the URL starts with `http://` or `https://`. -/
def navigateUrl (url : String) : String :=
  if pyStartsWith url "http://" || pyStartsWith url "https://" then url
  else "https://" ++ url

/-- The readiness condition `page.goto` is asked to wait for. -/
inductive WaitUntil where
  | domcontentloaded
  | load
deriving DecidableEq, Repr

/-- BrowserSession.navigate / `_navigate_sync`: raises `RuntimeError
("Browser not started")` when there is no page, otherwise calls
`page.goto` on the scheme-completed URL waiting for `domcontentloaded`. -/
def BrowserSession.navigate (s : BrowserSession) (url : String) :
    Except String (String × WaitUntil) :=
  if s.page then .ok (navigateUrl url, .domcontentloaded)
  else .error "Browser not started"

/-! ## Browser manager (backend/app/browser/manager.py) -/

/-- BrowserManager state: `_sessions` and `_controllers` dicts (absent key
represented as `none`), plus a ghost counter supplying identities for newly
constructed `BrowserSession` objects. -/
structure BrowserMgr where
  sessions : String → Option BrowserSession
  controllers : String → Option (Int × String)
  next_sid : Nat

/-- Fresh manager. -/
def BrowserMgr.initial : BrowserMgr :=
  { sessions := fun _ => none, controllers := fun _ => none, next_sid := 0 }

/-- BrowserManager.get_session. -/
def BrowserMgr.get_session (m : BrowserMgr) (room_code : String) :
    Option BrowserSession :=
  m.sessions room_code

/-- Construct, start and register a new session (the fall-through path of
`create_session`). -/
def BrowserMgr.newSession (m : BrowserMgr) (room_code : String) :
    BrowserSession × BrowserMgr :=
  let session := (BrowserSession.init m.next_sid room_code).start
  (session,
    { m with
      sessions := fun r => if r = room_code then some session else m.sessions r,
      next_sid := m.next_sid + 1 })

/-- BrowserManager.create_session: returns the existing session when it is
present and `is_running`; otherwise constructs, starts and registers a new
one. -/
def BrowserMgr.create_session (m : BrowserMgr) (room_code : String) :
    BrowserSession × BrowserMgr :=
  match m.get_session room_code with
  | some existing =>
    if existing.is_running then (existing, m) else m.newSession room_code
  | none => m.newSession room_code

/-- BrowserManager.close_session: pops the session and stops it (the
stopped object is dropped; only the registry matters afterwards). -/
def BrowserMgr.close_session (m : BrowserMgr) (room_code : String) :
    BrowserMgr :=
  { m with sessions := fun r => if r = room_code then none else m.sessions r }

/-- BrowserManager.get_controller. -/
def BrowserMgr.get_controller (m : BrowserMgr) (room_code : String) :
    Option (Int × String) :=
  m.controllers room_code

/-- BrowserManager.set_controller. -/
def BrowserMgr.set_controller (m : BrowserMgr) (room_code : String)
    (user_id : Int) (username : String) : BrowserMgr :=
  { m with controllers :=
      fun r => if r = room_code then some (user_id, username)
               else m.controllers r }

/-- BrowserManager.clear_controller. -/
def BrowserMgr.clear_controller (m : BrowserMgr) (room_code : String) :
    BrowserMgr :=
  { m with controllers :=
      fun r => if r = room_code then none else m.controllers r }

/-- BrowserManager.is_controller: `controller is not None and
controller[0] == user_id`. -/
def BrowserMgr.is_controller (m : BrowserMgr) (room_code : String)
    (user_id : Int) : Bool :=
  match m.get_controller room_code with
  | some controller => controller.1 = user_id
  | none => false

/-! ## Audio capture (backend/app/browser/audio.py) -/

/-- The process-wide `AudioCapture` singleton: `_process` holds the handle
of the spawned ffmpeg helper; `spawn_count` is a ghost counting how many
times the helper was launched. -/
structure AudioCapture where
  process : Option Nat
  is_running_flag : Bool
  spawn_count : Nat
deriving DecidableEq, Repr

/-- AudioCapture.__init__. -/
def AudioCapture.init : AudioCapture :=
  { process := none, is_running_flag := false, spawn_count := 0 }

/-- AudioCapture.start: no-op when the flag is set, otherwise spawns the
ffmpeg helper and sets the flag. -/
def AudioCapture.start (a : AudioCapture) : AudioCapture :=
  if a.is_running_flag then a
  else { process := some a.spawn_count, is_running_flag := true,
         spawn_count := a.spawn_count + 1 }

/-- AudioCapture.stop: clears the flag and terminates/clears the helper. -/
def AudioCapture.stop (a : AudioCapture) : AudioCapture :=
  { a with is_running_flag := false, process := none }

/-! ## Streaming state (module globals of backend/app/websocket/routes.py) -/

/-- The module-level streaming globals: keys of `_screenshot_tasks` and
`_audio_tasks` (the task handles themselves carry no further model state),
the `_audio_room` exclusivity token, and the `audio_capture` singleton. -/
structure StreamState where
  screenshot_tasks : List String
  audio_tasks : List String
  audio_room : Option String
  capture : AudioCapture
deriving DecidableEq, Repr

/-- Startup state of the module. -/
def StreamState.initial : StreamState :=
  { screenshot_tasks := [], audio_tasks := [], audio_room := none,
    capture := AudioCapture.init }

/-- routes.start_screenshot_stream: no-op when the room already has a task,
otherwise registers a new task for the room. -/
def start_screenshot_stream (st : StreamState) (room_code : String) :
    StreamState :=
  if room_code ∈ st.screenshot_tasks then st
  else { st with screenshot_tasks := st.screenshot_tasks ++ [room_code] }

/-- routes.stop_screenshot_stream: pops and cancels the room's task. -/
def stop_screenshot_stream (st : StreamState) (room_code : String) :
    StreamState :=
  { st with screenshot_tasks := st.screenshot_tasks.erase room_code }

/-- routes.start_audio_stream: rejected outright when `_audio_room` is held
by anyone (no queuing, helper not started); no-op when the room already has
an audio task; otherwise takes the token, starts the capture helper and
registers the loop task. -/
def start_audio_stream (st : StreamState) (room_code : String) :
    StreamState :=
  if st.audio_room.isSome then st
  else if room_code ∈ st.audio_tasks then st
  else { st with audio_room := some room_code,
                 capture := st.capture.start,
                 audio_tasks := st.audio_tasks ++ [room_code] }

/-- routes.stop_audio_stream: pops and cancels the room's task, and when
this room holds the token, stops the capture helper and releases it. -/
def stop_audio_stream (st : StreamState) (room_code : String) :
    StreamState :=
  let st1 := { st with audio_tasks := st.audio_tasks.erase room_code }
  if st1.audio_room = some room_code then
    { st1 with capture := st1.capture.stop, audio_room := none }
  else st1

/-! ## Events and message handling (backend/app/websocket/routes.py,
backend/app/websocket/events.py) -/

/-- Outbound events emitted by `handle_message` (the fields of the pydantic
event models that the handler fills in; the server timestamp is left out of
the model). -/
inductive OutEvent where
  | errorEv (message : String)
  | chatMessage (user_id : Int) (username : String) (content : String)
      (message_id : Int)
  | remoteChanged (controller_id : Int) (controller_username : String)
  | remoteRequest (user_id : Int) (username : String)
deriving DecidableEq, Repr

/-- An operation forwarded to the room's `BrowserSession`. -/
inductive SessionOp where
  | navigateOp (url : String)
  | clickOp (x y : Int)
  | typeTextOp (text : String)
  | pressKeyOp (key : String)
  | scrollOp (delta_x delta_y : Int)
deriving DecidableEq, Repr

/-- One observable effect of `handle_message`: a unicast send, a room
broadcast, or a command submitted to the room's session. -/
inductive Output where
  | sendPersonal (target : Connection) (e : OutEvent)
  | broadcastEv (room_code : String) (e : OutEvent)
  | sessionOp (room_code : String) (op : SessionOp)
deriving DecidableEq, Repr

/-- The inbound message dict `data`: the event tag plus the fields the
handler reads with `data.get(...)`; `none` models an absent key. -/
structure MsgData where
  event : String
  content : Option String := none
  url : Option String := none
  x : Option Int := none
  y : Option Int := none
  text : Option String := none
  key : Option String := none
  deltaX : Option Int := none
  deltaY : Option Int := none
  target_user_id : Option Int := none
deriving DecidableEq, Repr

/-- The database `room` row fields the handler reads. -/
structure Room where
  rid : Int
  host_id : Int
deriving DecidableEq, Repr

/-- A persisted chat `Message` row (`mid` is the id assigned on commit). -/
structure DbMessage where
  mid : Int
  room_id : Int
  user_id : Int
  content : String
deriving DecidableEq, Repr

/-- Python str.strip(): drop whitespace from both ends. -/
def pyStrip (s : String) : String :=
  String.mk
    (((s.toList.dropWhile Char.isWhitespace).reverse.dropWhile
        Char.isWhitespace).reverse)

/-- The server state `handle_message` reads and writes: the connection
registry, the browser manager, the streaming globals, and the chat message
table with its id sequence. -/
structure ServerState where
  rooms : Rooms
  brw : BrowserMgr
  streams : StreamState
  db : List DbMessage
  next_mid : Int

/-- routes.handle_message: the full inbound dispatch.  Returns the updated
server state and the list of effects, in program order. -/
def handle_message (st : ServerState) (connection : Connection) (room : Room)
    (data : MsgData) : ServerState × List Output :=
  if data.event = "chat_message" then
    let content := pyStrip (data.content.getD "")
    if content = "" then
      (st, [.sendPersonal connection (.errorEv "Message cannot be empty")])
    else if content.length > 1000 then
      (st, [.sendPersonal connection
              (.errorEv "Message too long (max 1000 characters)")])
    else
      let message : DbMessage :=
        { mid := st.next_mid, room_id := room.rid,
          user_id := connection.user_id, content := content }
      ({ st with db := st.db ++ [message], next_mid := st.next_mid + 1 },
       [.broadcastEv connection.room_code
          (.chatMessage connection.user_id connection.username content
            message.mid)])
  else if data.event = "browser_start" then
    if connection.user_id ≠ room.host_id then
      (st, [.sendPersonal connection
              (.errorEv "Only the host can start the browser")])
    else
      let brw1 := (st.brw.create_session connection.room_code).2
      let streams1 := start_screenshot_stream st.streams connection.room_code
      let streams2 := start_audio_stream streams1 connection.room_code
      let brw2 := brw1.set_controller connection.room_code connection.user_id
        connection.username
      ({ st with brw := brw2, streams := streams2 },
       [.broadcastEv connection.room_code
          (.remoteChanged connection.user_id connection.username)])
  else if data.event = "browser_stop" then
    if connection.user_id ≠ room.host_id then
      (st, [.sendPersonal connection
              (.errorEv "Only the host can stop the browser")])
    else
      let streams1 := stop_screenshot_stream st.streams connection.room_code
      let streams2 := stop_audio_stream streams1 connection.room_code
      let brw1 := st.brw.close_session connection.room_code
      let brw2 := brw1.clear_controller connection.room_code
      ({ st with brw := brw2, streams := streams2 }, [])
  else if data.event = "browser_navigate" then
    match st.brw.get_session connection.room_code with
    | none =>
      (st, [.sendPersonal connection (.errorEv "Browser not started")])
    | some _ =>
      if ¬ st.brw.is_controller connection.room_code connection.user_id then
        (st, [.sendPersonal connection
                (.errorEv "You don't have control of the browser")])
      else
        let url := pyStrip (data.url.getD "")
        if url ≠ "" then
          (st, [.sessionOp connection.room_code (.navigateOp url)])
        else (st, [])
  else if data.event = "browser_click" then
    match st.brw.get_session connection.room_code with
    | none =>
      (st, [.sendPersonal connection (.errorEv "Browser not started")])
    | some _ =>
      if ¬ st.brw.is_controller connection.room_code connection.user_id then
        (st, [.sendPersonal connection
                (.errorEv "You don't have control of the browser")])
      else
        let x := data.x.getD 0
        let y := data.y.getD 0
        (st, [.sessionOp connection.room_code (.clickOp x y)])
  else if data.event = "browser_type" then
    match st.brw.get_session connection.room_code with
    | none =>
      (st, [.sendPersonal connection (.errorEv "Browser not started")])
    | some _ =>
      if ¬ st.brw.is_controller connection.room_code connection.user_id then
        (st, [.sendPersonal connection
                (.errorEv "You don't have control of the browser")])
      else
        let text := data.text.getD ""
        if text ≠ "" then
          (st, [.sessionOp connection.room_code (.typeTextOp text)])
        else (st, [])
  else if data.event = "browser_keypress" then
    match st.brw.get_session connection.room_code with
    | none =>
      (st, [.sendPersonal connection (.errorEv "Browser not started")])
    | some _ =>
      if ¬ st.brw.is_controller connection.room_code connection.user_id then
        (st, [.sendPersonal connection
                (.errorEv "You don't have control of the browser")])
      else
        let key := data.key.getD ""
        if key ≠ "" then
          (st, [.sessionOp connection.room_code (.pressKeyOp key)])
        else (st, [])
  else if data.event = "browser_scroll" then
    match st.brw.get_session connection.room_code with
    | none =>
      (st, [.sendPersonal connection (.errorEv "Browser not started")])
    | some _ =>
      if ¬ st.brw.is_controller connection.room_code connection.user_id then
        (st, [.sendPersonal connection
                (.errorEv "You don't have control of the browser")])
      else
        let delta_x := data.deltaX.getD 0
        let delta_y := data.deltaY.getD 0
        (st, [.sessionOp connection.room_code (.scrollOp delta_x delta_y)])
  else if data.event = "remote_request" then
    match st.brw.get_session connection.room_code with
    | none =>
      (st, [.sendPersonal connection (.errorEv "Browser not started")])
    | some _ =>
      if st.brw.is_controller connection.room_code connection.user_id then
        (st, [.sendPersonal connection (.errorEv "You already have control")])
      else
        (st, [.broadcastEv connection.room_code
                (.remoteRequest connection.user_id connection.username)])
  else if data.event = "remote_pass" then
    match st.brw.get_session connection.room_code with
    | none =>
      (st, [.sendPersonal connection (.errorEv "Browser not started")])
    | some _ =>
      if ¬ st.brw.is_controller connection.room_code connection.user_id then
        (st, [.sendPersonal connection
                (.errorEv "You don't have control to pass")])
      else
        match data.target_user_id with
        | none =>
          (st, [.sendPersonal connection (.errorEv "No target user specified")])
        | some target_user_id =>
          if target_user_id = 0 then
            (st, [.sendPersonal connection
                    (.errorEv "No target user specified")])
          else
            match get_connection_by_user_id st.rooms connection.room_code
                target_user_id with
            | none =>
              (st, [.sendPersonal connection
                      (.errorEv "User not found in room")])
            | some target_connection =>
              ({ st with brw := (st.brw.set_controller connection.room_code
                  target_user_id target_connection.username) },
               [.broadcastEv connection.room_code
                  (.remoteChanged target_user_id
                    target_connection.username)])
  else if data.event = "remote_take" then
    match st.brw.get_session connection.room_code with
    | none =>
      (st, [.sendPersonal connection (.errorEv "Browser not started")])
    | some _ =>
      if connection.user_id ≠ room.host_id then
        (st, [.sendPersonal connection
                (.errorEv "Only the host can take control")])
      else
        ({ st with brw := (st.brw.set_controller connection.room_code
            connection.user_id connection.username) },
         [.broadcastEv connection.room_code
            (.remoteChanged connection.user_id connection.username)])
  else
    (st, [.sendPersonal connection
            (.errorEv ("Unknown event type: " ++ data.event))])

/-! ## Helper lemmas and concrete fixtures -/

/-- The delivery loop delivers exactly to the connections whose transport
accepts the send, in room order, always with the same payload. -/
theorem broadcastLoop_eq {α : Type} (net : Net) (m : α) (conns : List Connection) :
    broadcastLoop net conns m
      = (conns.filter (fun c => net c.websocket)).map (fun c => (c, m)) := by
  induction conns with
  | nil => rfl
  | cons c rest ih =>
    cases h : net c.websocket with
    | true => simp [broadcastLoop, sendJson, h, ih]
    | false => simp [broadcastLoop, sendJson, h, ih]

/-- With every transport healthy, a broadcast delivers to every connection
of the room, in order. -/
theorem broadcast_all_ok {α : Type} (rooms : Rooms) (room_code : String) (m : α)
    (h : ∀ c ∈ rooms room_code, (fun _ => true : Net) c.websocket = true) :
    broadcast_to_room (fun _ => true) rooms room_code m
      = (rooms room_code).map (fun c => (c, m)) := by
  simp [broadcast_to_room, broadcastLoop_eq, List.filter_eq_self.mpr h]

/-- Fixture: a room "R" with alice (id 1) and bob (id 2) connected. -/
def connA : Connection := { websocket := 1, user_id := 1, username := "alice", room_code := "R" }

/-- Fixture: bob's connection. -/
def connB : Connection := { websocket := 2, user_id := 2, username := "bob", room_code := "R" }

/-- Fixture: registry holding alice and bob in room "R". -/
def roomsW : Rooms := fun r => if r = "R" then [connA, connB] else []

/-- Fixture: a started session for room "R". -/
def sessW : BrowserSession := (BrowserSession.init 0 "R").start

/-- Fixture: browser manager with a live session for "R" and alice as
controller. -/
def brwW : BrowserMgr :=
  { sessions := fun r => if r = "R" then some sessW else none,
    controllers := fun r => if r = "R" then some (1, "alice") else none,
    next_sid := 1 }

/-- Fixture: the database room row (id 1, host alice). -/
def roomW : Room := { rid := 1, host_id := 1 }

/-- Fixture: server state with no session and nobody connected. -/
def stEmpty : ServerState :=
  { rooms := emptyRooms, brw := BrowserMgr.initial,
    streams := StreamState.initial, db := [], next_mid := 1 }

/-- Fixture: server state with alice and bob connected, a live session for
"R", and alice holding control. -/
def stLive : ServerState :=
  { rooms := roomsW, brw := brwW, streams := StreamState.initial,
    db := [], next_mid := 1 }

/-! ## C1: connection registry uniqueness on (room, participant-id) -/

/-- C1, counterexample: connecting the same participant (id 1) to room "R"
twice leaves two live connections with the pair ("R", 1) in the registry —
`connect` never evicts, refuting the claimed invariant. -/
theorem c1_counterexample :
    (((connect (connect emptyRooms 1 1 "alice" "R").2 2 1 "alice" "R").2 "R").length = 2)
    ∧ ∀ c ∈ ((connect (connect emptyRooms 1 1 "alice" "R").2 2 1 "alice" "R").2 "R"),
        c.user_id = 1 ∧ c.room_code = "R" := by
  decide

/-- C1, amended: `connect` registers unconditionally — it appends the new
connection to the room's list (leaving any same-participant connection in
place) and touches no other room; `disconnect` then removes every
connection of the room carrying that participant id. -/
theorem c1_theorem (rooms : Rooms) (websocket : Nat) (user_id : Int)
    (username room_code r : String) (connection : Connection) :
    ((connect rooms websocket user_id username room_code).2 room_code
        = rooms room_code
          ++ [{ websocket := websocket, user_id := user_id,
                username := username, room_code := room_code }])
    ∧ (r ≠ room_code →
        (connect rooms websocket user_id username room_code).2 r = rooms r)
    ∧ (disconnect rooms connection connection.room_code
        = (rooms connection.room_code).filter
            (fun c => c.user_id ≠ connection.user_id)) := by
  refine ⟨?_, ?_, ?_⟩
  · simp [connect]
  · intro h
    simp [connect, h]
  · simp [disconnect]

/-- C1 witness: the amended statement evaluated on the empty registry. -/
theorem c1_witness :
    ((connect emptyRooms 1 1 "alice" "R").2 "R"
        = [{ websocket := 1, user_id := 1, username := "alice", room_code := "R" }])
    ∧ ((connect emptyRooms 1 1 "alice" "R").2 "S" = []) := by
  have h := c1_theorem emptyRooms 1 1 "alice" "R" "S" connA
  refine ⟨?_, ?_⟩
  · rw [h.1]
    rfl
  · rw [h.2.1 (by decide)]
    rfl

/-! ## C2: broadcast delivers to all, swallowing per-recipient failures -/

/-- C2: a broadcast attempts every connection of the room with the very
same payload: every connection whose transport works receives `(c, m)`
even when other transports fail; every delivery made is to a room member
and carries the payload unchanged; and with all transports healthy the
delivery list is exactly the room's connection list.  The call is total —
it never fails, whatever the transports do. -/
theorem c2_theorem {α : Type} (net : Net) (rooms : Rooms) (room_code : String)
    (m : α) :
    (∀ c ∈ rooms room_code, net c.websocket = true →
        (c, m) ∈ broadcast_to_room net rooms room_code m)
    ∧ (∀ p ∈ broadcast_to_room net rooms room_code m,
        p.1 ∈ rooms room_code ∧ p.2 = m)
    ∧ ((∀ c ∈ rooms room_code, net c.websocket = true) →
        broadcast_to_room net rooms room_code m
          = (rooms room_code).map (fun c => (c, m))) := by
  refine ⟨?_, ?_, ?_⟩
  · intro c hc hnet
    simp only [broadcast_to_room, broadcastLoop_eq, List.mem_map]
    exact ⟨c, List.mem_filter.mpr ⟨hc, hnet⟩, rfl⟩
  · intro p hp
    simp only [broadcast_to_room, broadcastLoop_eq, List.mem_map] at hp
    obtain ⟨c, hc, rfl⟩ := hp
    exact ⟨(List.mem_filter.mp hc).1, rfl⟩
  · intro h
    simp [broadcast_to_room, broadcastLoop_eq, List.filter_eq_self.mpr h]

/-- C2 witness: in the two-member room, with bob's transport broken, alice
still receives the payload, every delivery is to a member with the same
payload, and with both transports healthy both receive it. -/
theorem c2_witness :
    ((connA, (0 : Nat)) ∈
        broadcast_to_room (fun ws => decide (ws = 1)) roomsW "R" (0 : Nat))
    ∧ (∀ p ∈ broadcast_to_room (fun ws => decide (ws = 1)) roomsW "R" (0 : Nat),
        p.1 ∈ roomsW "R" ∧ p.2 = 0)
    ∧ (broadcast_to_room (fun _ => true) roomsW "R" (0 : Nat)
        = [(connA, 0), (connB, 0)]) := by
  have h := c2_theorem (fun ws => decide (ws = 1)) roomsW "R" (0 : Nat)
  have h2 := c2_theorem (fun _ => true) roomsW "R" (0 : Nat)
  refine ⟨?_, ?_, ?_⟩
  · exact h.1 connA (by decide) (by decide)
  · exact h.2.1
  · rw [h2.2.2 (by decide)]
    rfl

/-! ## C3: input commands are controller-gated -/

/-- The five inbound input-command event tags. -/
def inputEvents : List String :=
  ["browser_navigate", "browser_click", "browser_type", "browser_keypress",
   "browser_scroll"]

/-- C3: for each input command, with no session for the room the handler
replies with the no-session error to the sender alone and changes nothing;
with a session present but the sender not the current controller it replies
with the not-controller error to the sender alone — in both cases the
returned state is the incoming state and no `sessionOp` is emitted. -/
theorem c3_theorem (st : ServerState) (connection : Connection) (room : Room)
    (data : MsgData) (h : data.event ∈ inputEvents) :
    (st.brw.get_session connection.room_code = none →
        handle_message st connection room data
          = (st, [.sendPersonal connection (.errorEv "Browser not started")]))
    ∧ (∀ s, st.brw.get_session connection.room_code = some s →
        st.brw.is_controller connection.room_code connection.user_id = false →
        handle_message st connection room data
          = (st, [.sendPersonal connection
              (.errorEv "You don't have control of the browser")])) := by
  simp only [inputEvents, List.mem_cons, List.not_mem_nil, or_false] at h
  refine ⟨?_, ?_⟩
  · intro hs
    rcases h with h | h | h | h | h <;> simp [handle_message, h, hs]
  · intro s hs hc
    rcases h with h | h | h | h | h <;> simp [handle_message, h, hs, hc]

/-- C3 witness: a click with no session for the room, and a click by bob
while alice holds control, each answered by the matching unicast error with
the state unchanged. -/
theorem c3_witness :
    (handle_message stEmpty connA roomW { event := "browser_click" }
      = (stEmpty, [.sendPersonal connA (.errorEv "Browser not started")]))
    ∧ (handle_message stLive connB roomW { event := "browser_click" }
      = (stLive, [.sendPersonal connB
          (.errorEv "You don't have control of the browser")])) := by
  refine ⟨?_, ?_⟩
  · exact (c3_theorem stEmpty connA roomW { event := "browser_click" }
      (by decide)).1 rfl
  · exact (c3_theorem stLive connB roomW { event := "browser_click" }
      (by decide)).2 sessW rfl (by decide)

/-! ## C10: remote_request from the current controller -/

/-- C10: with a live session for the room, a `remote_request` sent by the
participant currently holding control is answered by a unicast error to
that sender only; the state is returned unchanged (no controller change)
and no broadcast is emitted. -/
theorem c10_theorem (st : ServerState) (connection : Connection) (room : Room)
    (data : MsgData) (h : data.event = "remote_request") (s : BrowserSession)
    (hs : st.brw.get_session connection.room_code = some s)
    (hc : st.brw.is_controller connection.room_code connection.user_id = true) :
    handle_message st connection room data
      = (st, [.sendPersonal connection (.errorEv "You already have control")]) := by
  simp [handle_message, h, hs, hc]

/-- C10 witness: alice, the controller of the live fixture room, sends
`remote_request` and gets only the already-in-control error back. -/
theorem c10_witness :
    handle_message stLive connA roomW { event := "remote_request" }
      = (stLive, [.sendPersonal connA (.errorEv "You already have control")]) :=
  c10_theorem stLive connA roomW { event := "remote_request" } rfl sessW rfl
    (by decide)

/-! ## C4: remote_pass semantics -/

/-- C4: with a live session, a `remote_pass` from a non-controller, or with
a missing target, or naming a participant with no live connection in the
room, is answered by the matching unicast error with the state unchanged
and nothing broadcast.  When the sender is the current controller and the
target id resolves in the registry, the controller record becomes the pair
of the target id and the target's server-side display name, the only
effect besides that is one `remote_changed` broadcast to the room, the
resolved target really is a connection of the room bearing the target id,
and that broadcast (over healthy transports) reaches every connection of
the room — the passer included whenever they are connected. -/
theorem c4_theorem (st : ServerState) (connection : Connection) (room : Room)
    (data : MsgData) (h : data.event = "remote_pass") (s : BrowserSession)
    (hs : st.brw.get_session connection.room_code = some s) :
    (st.brw.is_controller connection.room_code connection.user_id = false →
        handle_message st connection room data
          = (st, [.sendPersonal connection
              (.errorEv "You don't have control to pass")]))
    ∧ (st.brw.is_controller connection.room_code connection.user_id = true →
        (data.target_user_id = none →
            handle_message st connection room data
              = (st, [.sendPersonal connection
                  (.errorEv "No target user specified")]))
        ∧ (∀ t, data.target_user_id = some t →
            (t = 0 →
                handle_message st connection room data
                  = (st, [.sendPersonal connection
                      (.errorEv "No target user specified")]))
            ∧ (t ≠ 0 →
                get_connection_by_user_id st.rooms connection.room_code t
                  = none →
                handle_message st connection room data
                  = (st, [.sendPersonal connection
                      (.errorEv "User not found in room")]))
            ∧ (∀ tc, t ≠ 0 →
                get_connection_by_user_id st.rooms connection.room_code t
                  = some tc →
                (handle_message st connection room data
                  = ({ st with brw := (st.brw.set_controller
                        connection.room_code t tc.username) },
                     [.broadcastEv connection.room_code
                        (.remoteChanged t tc.username)]))
                ∧ ((st.brw.set_controller connection.room_code t
                      tc.username).get_controller connection.room_code
                    = some (t, tc.username))
                ∧ tc.user_id = t
                ∧ tc ∈ st.rooms connection.room_code
                ∧ (∀ c ∈ st.rooms connection.room_code,
                    (c, OutEvent.remoteChanged t tc.username) ∈
                      broadcast_to_room (fun _ => true) st.rooms
                        connection.room_code
                        (OutEvent.remoteChanged t tc.username))))) := by
  refine ⟨?_, ?_⟩
  · intro hc
    simp [handle_message, h, hs, hc]
  · intro hc
    refine ⟨?_, ?_⟩
    · intro ht
      simp [handle_message, h, hs, hc, ht]
    · intro t ht
      refine ⟨?_, ?_, ?_⟩
      · intro ht0
        simp [handle_message, h, hs, hc, ht, ht0]
      · intro ht0 hfind
        simp [handle_message, h, hs, hc, ht, ht0, hfind]
      · intro tc ht0 hfind
        refine ⟨?_, ?_, ?_, ?_, ?_⟩
        · simp [handle_message, h, hs, hc, ht, ht0, hfind]
        · simp [BrowserMgr.set_controller, BrowserMgr.get_controller]
        · have := List.find?_some hfind
          simpa using this
        · exact List.mem_of_find?_eq_some hfind
        · intro c hcmem
          rw [broadcast_all_ok st.rooms connection.room_code _
            (fun _ _ => rfl)]
          exact List.mem_map.mpr ⟨c, hcmem, rfl⟩

/-- C4 witness: in the live fixture room, alice (the controller) passes to
bob: the controller record becomes (2, "bob") with a single
`remote_changed` broadcast; bob's reject when he tries to pass; and a pass
to the unconnected id 3 is rejected with no state change. -/
theorem c4_witness :
    (handle_message stLive connA roomW
        { event := "remote_pass", target_user_id := some 2 }
      = ({ stLive with brw := (stLive.brw.set_controller "R" 2 "bob") },
         [.broadcastEv "R" (.remoteChanged 2 "bob")]))
    ∧ (handle_message stLive connB roomW
        { event := "remote_pass", target_user_id := some 1 }
      = (stLive, [.sendPersonal connB
          (.errorEv "You don't have control to pass")]))
    ∧ (handle_message stLive connA roomW
        { event := "remote_pass", target_user_id := some 3 }
      = (stLive, [.sendPersonal connA (.errorEv "User not found in room")])) := by
  refine ⟨?_, ?_, ?_⟩
  · exact ((((c4_theorem stLive connA roomW
      { event := "remote_pass", target_user_id := some 2 } rfl sessW rfl).2
      (by decide)).2 2 rfl).2.2 connB (by decide) rfl).1
  · exact (c4_theorem stLive connB roomW
      { event := "remote_pass", target_user_id := some 1 } rfl sessW rfl).1
      (by decide)
  · exact ((((c4_theorem stLive connA roomW
      { event := "remote_pass", target_user_id := some 3 } rfl sessW rfl).2
      (by decide)).2 3 rfl).2.1 (by decide) rfl)

/-! ## C5: create_session returns the unique live session -/

/-- C5: `create_session` returns the registered session when one is present
and live, without touching the manager; the session it returns is always
the one registered for the room afterwards and is live; calling it twice in
succession therefore yields the very same session object both times with no
further state change; and it only ever replaces a registered session that
was not live — so two live sessions never coexist for one room. -/
theorem c5_theorem (m : BrowserMgr) (room_code : String) :
    (∀ s, m.get_session room_code = some s → s.is_running = true →
        m.create_session room_code = (s, m))
    ∧ ((m.create_session room_code).2.get_session room_code
        = some (m.create_session room_code).1)
    ∧ ((m.create_session room_code).1.is_running = true)
    ∧ (((m.create_session room_code).2.create_session room_code).1
        = (m.create_session room_code).1
      ∧ ((m.create_session room_code).2.create_session room_code).2
        = (m.create_session room_code).2)
    ∧ (∀ s, m.get_session room_code = some s →
        (m.create_session room_code).1 ≠ s → s.is_running = false) := by
  have hfresh : ∀ (m' : BrowserMgr),
      (m'.newSession room_code).2.get_session room_code
        = some (m'.newSession room_code).1 := by
    intro m'
    simp [BrowserMgr.newSession, BrowserMgr.get_session]
  have hrun : ∀ (m' : BrowserMgr),
      (m'.newSession room_code).1.is_running = true := by
    intro m'
    simp [BrowserMgr.newSession, BrowserSession.init, BrowserSession.start,
      BrowserSession.is_running]
  have hretg : ∀ (m' : BrowserMgr) s, m'.get_session room_code = some s →
      s.is_running = true → m'.create_session room_code = (s, m') := by
    intro m' s hs hr
    simp [BrowserMgr.create_session, hs, hr]
  have hret := hretg m
  have hreg : (m.create_session room_code).2.get_session room_code
      = some (m.create_session room_code).1 := by
    unfold BrowserMgr.create_session
    cases hs : m.get_session room_code with
    | none => exact hfresh m
    | some s =>
      by_cases hr : s.is_running
      · simp [hr, hs]
      · simp [hr, hfresh m]
  have hlive : (m.create_session room_code).1.is_running = true := by
    unfold BrowserMgr.create_session
    cases hs : m.get_session room_code with
    | none => exact hrun m
    | some s =>
      by_cases hr : s.is_running
      · simp [hr]
      · simp [hr, hrun m]
  refine ⟨hret, hreg, hlive, ?_, ?_⟩
  · have h2' := hretg (m.create_session room_code).2
      (m.create_session room_code).1 hreg hlive
    exact ⟨by rw [h2'], by rw [h2']⟩
  · intro s hs hne
    by_contra hrun'
    have hr : s.is_running = true := by
      cases h : s.is_running with
      | true => rfl
      | false => exact absurd h hrun'
    exact hne (by rw [hret s hs hr])

/-- C5 witness: on the live fixture manager, creating the session for "R"
returns the registered live session and leaves the manager untouched. -/
theorem c5_witness :
    brwW.create_session "R" = (sessW, brwW) :=
  (c5_theorem brwW "R").1 sessW rfl (by decide)

/-! ## C6: session stop teardown -/

/-- Fixture: a fully started session holding all four handles. -/
def sessFull : BrowserSession :=
  { sid := 0, room_code := "R", playwright := true, browser := true,
    context := true, page := true, is_running_flag := true,
    executor_alive := true }

/-- Fixture: environment in which closing the page raises and every other
release call would succeed. -/
def envPageFail : CloseEnv :=
  { page_close_ok := false, context_close_ok := true,
    browser_close_ok := true, playwright_stop_ok := true }

/-- Fixture: environment in which every release call succeeds. -/
def envAllOk : CloseEnv :=
  { page_close_ok := true, context_close_ok := true,
    browser_close_ok := true, playwright_stop_ok := true }

/-- C6, counterexample: on a fully started session whose page close raises,
`stop` propagates the error and never attempts the remaining release steps —
the context, browser-surface and engine handles are all still held
afterwards, refuting the claim that every release step is attempted even
when an earlier one failed. -/
theorem c6_counterexample :
    (BrowserSession.stop envPageFail sessFull).2 = some .pageClose
    ∧ (BrowserSession.stop envPageFail sessFull).1.context = true
    ∧ (BrowserSession.stop envPageFail sessFull).1.browser = true
    ∧ (BrowserSession.stop envPageFail sessFull).1.playwright = true := by
  decide

/-- C6, amended: `stop` is a no-op when the running flag is clear; otherwise
it flips the flag to false first — including on every error path — and,
when no release call raises, releases page, context, browsing surface and
engine (tolerating any handle being already null) and shuts the executor
down.  However, teardown is short-circuited on error: when the page close
raises, the error propagates with only the flag flipped and the later
release steps are skipped. -/
theorem c6_theorem (env : CloseEnv) (s : BrowserSession) :
    (s.is_running_flag = false → BrowserSession.stop env s = (s, none))
    ∧ (s.is_running_flag = true →
        (BrowserSession.stop env s).1.is_running_flag = false)
    ∧ (s.is_running_flag = true →
        env.page_close_ok = true → env.context_close_ok = true →
        env.browser_close_ok = true → env.playwright_stop_ok = true →
        BrowserSession.stop env s
          = ({ s with is_running_flag := false, page := false,
                      context := false, browser := false,
                      playwright := false, executor_alive := false }, none))
    ∧ (s.is_running_flag = true → s.page = true →
        env.page_close_ok = false →
        BrowserSession.stop env s
          = ({ s with is_running_flag := false }, some .pageClose)) := by
  obtain ⟨sid, rc, pw, br, cx, pg, fl, ex⟩ := s
  obtain ⟨pok, cok, bok, plok⟩ := env
  refine ⟨?_, ?_, ?_, ?_⟩
  · intro h
    subst h
    rfl
  · intro h
    subst h
    cases pok <;> cases cok <;> cases bok <;> cases plok <;>
      cases pw <;> cases br <;> cases cx <;> cases pg <;>
        simp [BrowserSession.stop, BrowserSession.stop_sync, closeStep]
  · intro h h1 h2 h3 h4
    subst h h1 h2 h3 h4
    cases pw <;> cases br <;> cases cx <;> cases pg <;>
      simp [BrowserSession.stop, BrowserSession.stop_sync, closeStep]
  · intro h hp h1
    subst h hp h1
    simp [BrowserSession.stop, BrowserSession.stop_sync, closeStep]

/-- C6 witness: on the fully started session with every release call
healthy, `stop` clears the flag and all four handles and reports no
error. -/
theorem c6_witness :
    BrowserSession.stop envAllOk sessFull
      = ({ sessFull with is_running_flag := false, page := false,
                         context := false, browser := false,
                         playwright := false,
                         executor_alive := false }, none) :=
  (c6_theorem envAllOk sessFull).2.2.1 rfl rfl rfl rfl rfl

/-! ## C7: process-wide audio exclusivity token -/

/-- C7: while a room holds `_audio_room`, any start attempt by any room is
the identity on the streaming state — the token is not acquired, the
capture helper is not started a second time (its spawn count is unchanged)
and nothing is queued.  Stopping the holder's audio stream releases the
token and stops the helper; immediately afterwards another room's start
attempt succeeds: it takes the token and starts the helper.  (That at most
one room holds the token at a time is forced by the representation of
`_audio_room` as a single optional room id, mirroring the source.) -/
theorem c7_theorem (st : StreamState) (a b : String) :
    (st.audio_room = some a →
        (start_audio_stream st b = st
        ∧ (start_audio_stream st b).capture.spawn_count
            = st.capture.spawn_count
        ∧ (start_audio_stream st b).audio_room = some a))
    ∧ (st.audio_room = some a →
        ((stop_audio_stream st a).audio_room = none
        ∧ (stop_audio_stream st a).capture.is_running_flag = false
        ∧ (b ∉ (stop_audio_stream st a).audio_tasks →
            ((start_audio_stream (stop_audio_stream st a) b).audio_room
                = some b
            ∧ (start_audio_stream
                (stop_audio_stream st a) b).capture.is_running_flag
                = true)))) := by
  refine ⟨?_, ?_⟩
  · intro h
    have hid : start_audio_stream st b = st := by
      simp [start_audio_stream, h]
    exact ⟨hid, by rw [hid], by rw [hid, h]⟩
  · intro h
    have hstop : (stop_audio_stream st a).audio_room = none
        ∧ (stop_audio_stream st a).capture.is_running_flag = false := by
      simp [stop_audio_stream, h, AudioCapture.stop]
    refine ⟨hstop.1, hstop.2, ?_⟩
    intro hb
    have hrestart :
        start_audio_stream (stop_audio_stream st a) b
          = { stop_audio_stream st a with
              audio_room := some b,
              capture := (stop_audio_stream st a).capture.start,
              audio_tasks := (stop_audio_stream st a).audio_tasks ++ [b] } := by
      simp [start_audio_stream, hstop.1, hb]
    rw [hrestart]
    refine ⟨rfl, ?_⟩
    simp [AudioCapture.start, hstop.2]

/-- C7 witness: with room "A" holding the token, "B"'s start attempt leaves
the state untouched; after "A" stops, the token is free, the helper is
stopped, and "B"'s start attempt takes the token and restarts the helper. -/
theorem c7_witness :
    (start_audio_stream
        { screenshot_tasks := [], audio_tasks := ["A"],
          audio_room := some "A", capture := AudioCapture.init.start } "B"
      = { screenshot_tasks := [], audio_tasks := ["A"],
          audio_room := some "A", capture := AudioCapture.init.start })
    ∧ ((stop_audio_stream
        { screenshot_tasks := [], audio_tasks := ["A"],
          audio_room := some "A",
          capture := AudioCapture.init.start } "A").audio_room = none)
    ∧ ((start_audio_stream (stop_audio_stream
        { screenshot_tasks := [], audio_tasks := ["A"],
          audio_room := some "A",
          capture := AudioCapture.init.start } "A") "B").audio_room
        = some "B")
    ∧ ((start_audio_stream (stop_audio_stream
        { screenshot_tasks := [], audio_tasks := ["A"],
          audio_room := some "A",
          capture := AudioCapture.init.start } "A") "B").capture.is_running_flag
        = true) := by
  have h := c7_theorem
    { screenshot_tasks := [], audio_tasks := ["A"],
      audio_room := some "A", capture := AudioCapture.init.start } "A" "B"
  have h1 := h.1 rfl
  have h2 := h.2 rfl
  have h3 := h2.2.2 (by decide)
  exact ⟨h1.1, h2.1, h3.1, h3.2⟩

/-! ## C8: chat content bounds -/

/-- C8, counterexample: the empty chat message has trimmed length 0, at
most 1000 characters, yet it is not accepted: the sender alone gets the
empty-message error, nothing is broadcast and nothing is persisted —
refuting the claim that content of length at most 1000 is accepted. -/
theorem c8_counterexample :
    (handle_message stEmpty connA roomW
        { event := "chat_message", content := some "" }
      = (stEmpty, [.sendPersonal connA (.errorEv "Message cannot be empty")]))
    ∧ (pyStrip "").length ≤ 1000 := by
  exact ⟨rfl, by decide⟩

/-- C8, amended: chat content is trimmed first; if it is then empty the
sender alone receives the empty-message error; if its length exceeds 1000
the sender alone receives the too-long error — in both cases the state is
unchanged, so nothing is broadcast and nothing is persisted.  Non-empty
trimmed content of length at most 1000 is accepted: it is persisted with
the next message id and broadcast to the room, as the only effects. -/
theorem c8_theorem (st : ServerState) (connection : Connection) (room : Room)
    (data : MsgData) (h : data.event = "chat_message") :
    (pyStrip (data.content.getD "") = "" →
        handle_message st connection room data
          = (st, [.sendPersonal connection
              (.errorEv "Message cannot be empty")]))
    ∧ (pyStrip (data.content.getD "") ≠ "" →
        (pyStrip (data.content.getD "")).length > 1000 →
        handle_message st connection room data
          = (st, [.sendPersonal connection
              (.errorEv "Message too long (max 1000 characters)")]))
    ∧ (pyStrip (data.content.getD "") ≠ "" →
        (pyStrip (data.content.getD "")).length ≤ 1000 →
        handle_message st connection room data
          = ({ st with
               db := st.db ++ [{ mid := st.next_mid, room_id := room.rid,
                                 user_id := connection.user_id,
                                 content := pyStrip (data.content.getD "") }],
               next_mid := st.next_mid + 1 },
             [.broadcastEv connection.room_code
                (.chatMessage connection.user_id connection.username
                  (pyStrip (data.content.getD "")) st.next_mid)])) := by
  refine ⟨?_, ?_, ?_⟩
  · intro he
    simp [handle_message, h, he]
  · intro he hlen
    simp [handle_message, h, he, hlen]
  · intro he hlen
    have hlen' : ¬ (pyStrip (data.content.getD "")).length > 1000 := by
      omega
    simp [handle_message, h, he, hlen']

set_option maxRecDepth 10000 in
/-- C8 witness: the message "hi" (trimmed length 2) is accepted — persisted
as message 1 and broadcast to the room — while a 1001-character message is
rejected to the sender alone with no state change. -/
theorem c8_witness :
    (handle_message stEmpty connA roomW
        { event := "chat_message", content := some "hi" }
      = ({ stEmpty with
           db := [{ mid := 1, room_id := 1, user_id := 1, content := "hi" }],
           next_mid := 2 },
         [.broadcastEv "R" (.chatMessage 1 "alice" "hi" 1)]))
    ∧ (handle_message stEmpty connA roomW
        { event := "chat_message",
          content := some (String.mk (List.replicate 1001 'a')) }
      = (stEmpty, [.sendPersonal connA
          (.errorEv "Message too long (max 1000 characters)")])) := by
  refine ⟨?_, ?_⟩
  · exact (c8_theorem stEmpty connA roomW
      { event := "chat_message", content := some "hi" } rfl).2.2
      (by decide) (by decide)
  · exact (c8_theorem stEmpty connA roomW
      { event := "chat_message",
        content := some (String.mk (List.replicate 1001 'a')) } rfl).2.1
      (by decide) (by decide)

/-! ## C9: navigate -/

/-- Continuation of the spec's scheme shape after its first letter: zero or
more further letters and then "://".  (Used only to state C9; the source
itself checks only for the two literal prefixes.) -/
def schemeCont : List Char → Bool
  | [] => false
  | c :: cs =>
    if c = ':' then
      match cs with
      | '/' :: '/' :: _ => true
      | _ => false
    else c.isAlpha && schemeCont cs

/-- Whether a character list begins with a scheme: a letter, then letters,
then "://". -/
def startsWithSchemeL : List Char → Bool
  | [] => false
  | c :: cs => c.isAlpha && schemeCont cs

/-- Formalisation of the spec's notion that a URL already begins with a
scheme. -/
def startsWithScheme (url : String) : Bool :=
  startsWithSchemeL url.toList

/-- A URL that starts with "http://" begins with a scheme. -/
theorem scheme_of_http (url : String)
    (h : pyStartsWith url "http://" = true) : startsWithScheme url = true := by
  unfold pyStartsWith at h
  have h' : url.toList.take "http://".toList.length = "http://".toList :=
    eq_of_beq h
  have h2 : url.toList
      = 'h' :: 't' :: 't' :: 'p' :: ':' :: '/' :: '/'
          :: (url.toList.drop "http://".toList.length) := by
    conv_lhs =>
      rw [← List.take_append_drop ("http://".toList.length) url.toList]
    rw [h']
    rfl
  unfold startsWithScheme
  rw [h2]
  rfl

/-- A URL that starts with "https://" begins with a scheme. -/
theorem scheme_of_https (url : String)
    (h : pyStartsWith url "https://" = true) : startsWithScheme url = true := by
  unfold pyStartsWith at h
  have h' : url.toList.take "https://".toList.length = "https://".toList :=
    eq_of_beq h
  have h2 : url.toList
      = 'h' :: 't' :: 't' :: 'p' :: 's' :: ':' :: '/' :: '/'
          :: (url.toList.drop "https://".toList.length) := by
    conv_lhs =>
      rw [← List.take_append_drop ("https://".toList.length) url.toList]
    rw [h']
    rfl
  unfold startsWithScheme
  rw [h2]
  rfl

/-- C9: `navigate` fails with the not-started error when the session has no
live page; with a page, it always forwards to `goto` waiting for
`domcontentloaded` (basic document readiness); and when the URL does not
already begin with a scheme, the default scheme "https://" is prepended
before navigation. -/
theorem c9_theorem (s : BrowserSession) (url : String) :
    (s.page = false →
        s.navigate url = .error "Browser not started")
    ∧ (s.page = true →
        s.navigate url = .ok (navigateUrl url, .domcontentloaded))
    ∧ (s.page = true → startsWithScheme url = false →
        s.navigate url = .ok ("https://" ++ url, .domcontentloaded)) := by
  refine ⟨?_, ?_, ?_⟩
  · intro h
    simp [BrowserSession.navigate, h]
  · intro h
    simp [BrowserSession.navigate, h]
  · intro h hsch
    have h1 : pyStartsWith url "http://" = false := by
      cases hh : pyStartsWith url "http://" with
      | false => rfl
      | true => rw [scheme_of_http url hh] at hsch; cases hsch
    have h2 : pyStartsWith url "https://" = false := by
      cases hh : pyStartsWith url "https://" with
      | false => rfl
      | true => rw [scheme_of_https url hh] at hsch; cases hsch
    simp [BrowserSession.navigate, h, navigateUrl, h1, h2]

/-- C9 witness: on the started fixture session, navigating to
"example.com" (no scheme) goes to "https://example.com" waiting for
`domcontentloaded`, while a stopped fresh session refuses to navigate. -/
theorem c9_witness :
    (sessW.navigate "example.com"
      = .ok ("https://example.com", .domcontentloaded))
    ∧ ((BrowserSession.init 0 "R").navigate "example.com"
      = .error "Browser not started") := by
  refine ⟨?_, ?_⟩
  · have h := (c9_theorem sessW "example.com").2.2 rfl (by decide)
    simpa using h
  · exact (c9_theorem (BrowserSession.init 0 "R") "example.com").1 rfl

end WatchParty
